import Mathlib

/-!
Shallow embedding of the winit/glutin/glow/egui demo programs
(`src/main.rs`, `src/bin/ai_one.rs`, `src/bin/glow_run.rs`,
`src/bin/eframe_winit.rs`).

Each program is an `ApplicationHandler`: a window-id-keyed map of
per-window state plus the callbacks `resumed` / `window_event` /
`about_to_wait`.  We embed the handlers as pure functions from
application state and event to an `Option` of (new state, list of
emitted external effects); `none` models a Rust panic.  Results of
external library calls (egui's event response and frame output, the
success of fallible surface operations, GL compile/link statuses) are
oracle parameters.  `f32` constants are idealised as rationals; no
claim depends on float rounding.
-/

/-- A `u32` reinterpreted as `i32` (Rust `as i32` cast). -/
def u32ToI32 (n : Nat) : Int :=
  if n % 2 ^ 32 < 2 ^ 31 then (n % 2 ^ 32 : Int) else (n % 2 ^ 32 : Int) - 2 ^ 32

/-- `NonZeroU32::new`: `some n` iff `n ≠ 0`. `Option.get!`/`unwrap` on the
`none` case is a panic, modelled by propagating `none`. -/
def nonZeroU32 (n : Nat) : Option Nat :=
  if n = 0 then none else some n

/-! ### The window map (model of `HashMap<WindowId, WindowState>`) -/

/-- `HashMap::get`/`get_mut`: first entry with the given key. -/
def mapLookup (m : List (Nat × α)) (k : Nat) : Option α :=
  ((m.find? (fun p => p.1 == k)).map Prod.snd)

/-- In-place mutation through a `get_mut` reference: every entry with
key `k` is replaced, nothing is reordered. -/
def mapUpdate (m : List (Nat × α)) (k : Nat) (v : α) : List (Nat × α) :=
  m.map (fun p => if p.1 = k then (k, v) else p)

/-- `HashMap::remove`. -/
def mapRemove (m : List (Nat × α)) (k : Nat) : List (Nat × α) :=
  m.filter (fun p => p.1 ≠ k)

/-- `HashMap::insert` (fresh or replacing). -/
def mapInsert (m : List (Nat × α)) (k : Nat) (v : α) : List (Nat × α) :=
  (k, v) :: mapRemove m k

theorem mapLookup_nil (k : Nat) : mapLookup ([] : List (Nat × α)) k = none := rfl

theorem mapLookup_cons (p : Nat × α) (m : List (Nat × α)) (k : Nat) :
    mapLookup (p :: m) k = if p.1 = k then some p.2 else mapLookup m k := by
  by_cases h : p.1 = k
  · simp [mapLookup, List.find?, h]
  · have hb : (p.1 == k) = false := by simpa using h
    simp [mapLookup, List.find?, h, hb]

theorem mapRemove_cons (p : Nat × α) (m : List (Nat × α)) (k : Nat) :
    mapRemove (p :: m) k = if p.1 = k then mapRemove m k else p :: mapRemove m k := by
  by_cases h : p.1 = k <;> simp [mapRemove, List.filter, h]

theorem mapRemove_mapUpdate (m : List (Nat × α)) (k : Nat) (v : α) :
    mapRemove (mapUpdate m k v) k = mapRemove m k := by
  induction m with
  | nil => rfl
  | cons p m ih =>
      by_cases h : p.1 = k <;>
        simp [mapUpdate, mapRemove_cons, h] at ih ⊢ <;>
        simpa [mapUpdate] using ih

theorem mapLookup_mapUpdate_self (m : List (Nat × α)) (k : Nat) (v w : α)
    (h : mapLookup m k = some w) : mapLookup (mapUpdate m k v) k = some v := by
  induction m with
  | nil => simp [mapLookup] at h
  | cons p m ih =>
      by_cases hk : p.1 = k
      · simp [mapUpdate, mapLookup_cons, hk]
      · simp [mapUpdate, mapLookup_cons, hk] at h ⊢
        exact ih h

theorem mapRemove_of_lookup_none (m : List (Nat × α)) (k : Nat)
    (h : mapLookup m k = none) : mapRemove m k = m := by
  induction m with
  | nil => rfl
  | cons p m ih =>
      rw [mapLookup_cons] at h
      by_cases hk : p.1 = k
      · simp [hk] at h
      · simp [hk] at h
        rw [mapRemove_cons]
        simp [hk, ih h]

/-! ### Events and effects -/

/-- `winit::event::ElementState`. -/
inductive ElemState where
  | pressed
  | released
deriving DecidableEq, Repr

/-- The physical key of a keyboard event: the space bar or anything else. -/
inductive Key where
  | space
  | otherKey (code : Nat)
deriving DecidableEq, Repr

/-- The `winit::event::WindowEvent` constructors these programs match on.
`otherEvent` stands for every constructor handled by the catch-all arm. -/
inductive WEvent where
  | closeRequested
  | redrawRequested
  | resized (w h : Nat)
  | keyboardInput (state : ElemState) (key : Key)
  | otherEvent
deriving DecidableEq, Repr

/-- `glow::COLOR_BUFFER_BIT`. -/
def COLOR_BUFFER_BIT : Nat := 0x4000

/-- `glow::TRIANGLES`. -/
def TRIANGLES : Nat := 0x0004

/-- Observable calls into the external windowing / GL / egui-painter
libraries, in program order. -/
inductive Effect where
  | exit
  | requestRedraw (id : Nat)
  | surfaceResize (w h : Nat)
  | viewport (x y w h : Int)
  | clearColor (r g b a : Rat)
  | glClear (mask : Nat)
  | useProgram (p : Nat)
  | bindVertexArray (va : Nat)
  | getUniformLocation (p : Nat) (name : String)
  | uniform3f (r g b : Rat)
  | drawArrays (mode first count : Nat)
  | platformOutput
  | setTexture (id : Nat)
  | overlayPaint (w h numPrims : Nat)
  | freeTexture (id : Nat)
  | swapBuffers
  | bufferFill (argb : Nat)
  | prePresentNotify
  | present
  | paintCallbackAdded (r g b : Rat)
  | requestRepaint
deriving DecidableEq, Repr

def isExit : Effect → Bool
  | .exit => true
  | _ => false

def isSurfaceResize : Effect → Bool
  | .surfaceResize _ _ => true
  | _ => false

def isDrawArrays : Effect → Bool
  | .drawArrays _ _ _ => true
  | _ => false

def isOverlayPaint : Effect → Bool
  | .overlayPaint _ _ _ => true
  | _ => false

def isSetTexture : Effect → Bool
  | .setTexture _ => true
  | _ => false

def isFreeTexture : Effect → Bool
  | .freeTexture _ => true
  | _ => false

def isSwapBuffers : Effect → Bool
  | .swapBuffers => true
  | _ => false

def isPresent : Effect → Bool
  | .present => true
  | _ => false

def isBufferFill : Effect → Bool
  | .bufferFill _ => true
  | _ => false

/-! ### `src/main.rs` — the softbuffer (pixel-buffer) program -/

/-- Per-window state of `main.rs` (`window`, `surface`).  The only data
the handler reads from it is `window.inner_size()`. -/
structure SbWindowState where
  innerW : Nat
  innerH : Nat
deriving DecidableEq, Repr

/-- `main.rs` `Application`: the window map (the softbuffer `Context` is
an external handle with no observable state). -/
structure SbApp where
  windows : List (Nat × SbWindowState)
deriving DecidableEq, Repr

/-- Results of the fallible external surface operations that the code
unwraps (`surface.resize`, `surface.buffer_mut`, `buffer.present`). -/
structure SbOracle where
  resizeOk : Bool
  bufferOk : Bool
  presentOk : Bool
deriving DecidableEq, Repr

/-- `main.rs` `window_event`.  `none` models a panic (a failed
`unwrap`). -/
def sbWindowEvent (o : SbOracle) (app : SbApp) (id : Nat) (ev : WEvent) :
    Option (SbApp × List Effect) :=
  match mapLookup app.windows id with
  | none => some (app, [])
  | some ws =>
    match ev with
    | .closeRequested =>
        let m := mapRemove app.windows id
        some (⟨m⟩, if m.isEmpty then [.exit] else [])
    | .redrawRequested =>
        match nonZeroU32 ws.innerW, nonZeroU32 ws.innerH with
        | some w, some h =>
            if o.resizeOk then
              if o.bufferOk then
                if o.presentOk then
                  some (app, [.surfaceResize w h, .bufferFill 0xFF0066CC,
                              .prePresentNotify, .present])
                else none
              else none
            else none
        | _, _ => some (app, [])
    | .resized w h =>
        match nonZeroU32 w, nonZeroU32 h with
        | some w', some h' =>
            if o.resizeOk then
              some (app, [.surfaceResize w' h', .requestRedraw id])
            else none
        | _, _ => some (app, [])
    | _ => some (app, [])

/-- `main.rs` `resumed`: unconditionally calls `create_window`, which
inserts a fresh window (id and initial state chosen by the platform)
into the map. -/
def sbResumed (newId : Nat) (newWs : SbWindowState) (app : SbApp) : SbApp :=
  ⟨mapInsert app.windows newId newWs⟩

/-! ### `src/bin/glow_run.rs` — the plain-GL program -/

/-- Per-window state of `glow_run.rs`: `window`, `gl_context`,
`gl_surface`, `gl` are all opaque external handles; the handler reads
no data from them. -/
structure GlowWindowState where
  dummy : Unit
deriving DecidableEq, Repr

structure GlowApp where
  windows : List (Nat × GlowWindowState)
deriving DecidableEq, Repr

/-- Result of the `swap_buffers(..).unwrap()` call. -/
structure GlowOracle where
  swapOk : Bool
deriving DecidableEq, Repr

/-- `glow_run.rs` `window_event`. -/
def glowWindowEvent (o : GlowOracle) (app : GlowApp) (id : Nat) (ev : WEvent) :
    Option (GlowApp × List Effect) :=
  match mapLookup app.windows id with
  | none => some (app, [])
  | some _ =>
    match ev with
    | .closeRequested =>
        let m := mapRemove app.windows id
        some (⟨m⟩, if m.isEmpty then [.exit] else [])
    | .redrawRequested =>
        if o.swapOk then
          some (app, [.glClear COLOR_BUFFER_BIT, .drawArrays TRIANGLES 0 3,
                      .swapBuffers])
        else none
    | .resized w h =>
        if w ≠ 0 ∧ h ≠ 0 then
          match nonZeroU32 w, nonZeroU32 h with
          | some w', some h' =>
              some (app, [.surfaceResize w' h', .requestRedraw id])
          | _, _ => none
        else some (app, [])
    | _ => some (app, [])

/-- `glow_run.rs` `resumed`: guarded by `self.windows.is_empty()`. -/
def glowResumed (newId : Nat) (newWs : GlowWindowState) (app : GlowApp) : GlowApp :=
  if app.windows.isEmpty then ⟨mapInsert app.windows newId newWs⟩ else app

/-! ### `src/bin/ai_one.rs` — the GL + egui overlay program -/

/-- Per-window state of `ai_one.rs`.  External handles (`gl_context`,
`gl_surface`, `gl`, `egui_ctx`, `egui_winit`, `egui_painter`) are
opaque; the data the handler reads or writes is the window's inner
size, the GL object names `program` / `vertex_array`, and the UI state
`show_color_picker` / `color`. -/
structure AiWindowState where
  innerW : Nat
  innerH : Nat
  program : Nat
  vertexArray : Nat
  showColorPicker : Bool
  color : Rat × Rat × Rat
deriving DecidableEq, Repr

structure AiApp where
  windows : List (Nat × AiWindowState)
deriving DecidableEq, Repr

/-- What `egui_ctx.run` produced this frame: the texture delta's `set`
and `free` entry lists (by texture id), the tessellated primitive
count, and `pixels_per_point`. -/
structure EguiFrame where
  setTex : List Nat
  freeTex : List Nat
  numPrims : Nat
deriving DecidableEq, Repr

/-- External results consumed by `ai_one.rs`'s `window_event`:
`on_window_event`'s repaint flag, the frame output of `egui_ctx.run`,
the state the UI closure leaves in `show_color_picker` / `color` when
the picker window is shown, and the result of `swap_buffers`. -/
structure AiOracle where
  repaint : Bool
  frame : EguiFrame
  uiKeepOpen : Bool
  uiColor : Rat × Rat × Rat
  swapOk : Bool
deriving DecidableEq, Repr

/-- The keyboard pre-handling of `ai_one.rs` (runs before the event is
passed to egui): a press of the space bar flips `show_color_picker`
and requests a redraw. -/
def aiHandleKey (ws : AiWindowState) (id : Nat) (ev : WEvent) :
    AiWindowState × List Effect :=
  match ev with
  | .keyboardInput .pressed .space =>
      ({ ws with showColorPicker := !ws.showColorPicker }, [.requestRedraw id])
  | _ => (ws, [])

/-- The mutation `egui_ctx.run`'s closure applies through its `&mut`
borrows: when the picker is shown the UI may close it and move the
sliders; when hidden the closure body does nothing. -/
def uiMutate (o : AiOracle) (ws : AiWindowState) : AiWindowState :=
  if ws.showColorPicker then
    { ws with showColorPicker := o.uiKeepOpen, color := o.uiColor }
  else ws

/-- The external calls of `ai_one.rs`'s `RedrawRequested` arm, in
program order: viewport/clear, triangle pipeline bind and draw,
platform output, texture-delta `set` uploads, the overlay paint,
texture-delta `free`s, and the buffer swap.  `ws` is the state as read
during the frame (the uniform is set from `color` before `egui_ctx.run`
runs). -/
def aiRedrawTrace (o : AiOracle) (ws : AiWindowState) : List Effect :=
  [.viewport 0 0 (u32ToI32 ws.innerW) (u32ToI32 ws.innerH),
   .clearColor (mkRat 1 10) (mkRat 1 5) (mkRat 3 10) 1,
   .glClear COLOR_BUFFER_BIT,
   .useProgram ws.program,
   .bindVertexArray ws.vertexArray,
   .getUniformLocation ws.program "u_color",
   .uniform3f ws.color.1 ws.color.2.1 ws.color.2.2,
   .drawArrays TRIANGLES 0 3,
   .platformOutput]
  ++ o.frame.setTex.map .setTexture
  ++ [.overlayPaint ws.innerW ws.innerH o.frame.numPrims]
  ++ o.frame.freeTex.map .freeTexture
  ++ [.swapBuffers]

/-- `ai_one.rs` `window_event`: look up the window (silently drop the
event if absent), run the keyboard pre-handler, feed the event to
`egui_winit.on_window_event` (requesting a redraw if egui asks for
one), then dispatch on the event. -/
def aiWindowEvent (o : AiOracle) (app : AiApp) (id : Nat) (ev : WEvent) :
    Option (AiApp × List Effect) :=
  match mapLookup app.windows id with
  | none => some (app, [])
  | some ws0 =>
    let kp := aiHandleKey ws0 id ev
    let ws := kp.1
    let pre := kp.2 ++ (if o.repaint then [Effect.requestRedraw id] else [])
    match ev with
    | .closeRequested =>
        let m := mapRemove app.windows id
        some (⟨m⟩, pre ++ (if m.isEmpty then [.exit] else []))
    | .redrawRequested =>
        let ws' := uiMutate o ws
        if o.swapOk then
          some (⟨mapUpdate app.windows id ws'⟩, pre ++ aiRedrawTrace o ws)
        else none
    | .resized w h =>
        if w ≠ 0 ∧ h ≠ 0 then
          match nonZeroU32 w, nonZeroU32 h with
          | some w', some h' =>
              some (⟨mapUpdate app.windows id ws⟩,
                    pre ++ [.surfaceResize w' h', .requestRedraw id])
          | _, _ => none
        else some (⟨mapUpdate app.windows id ws⟩, pre)
    | _ => some (⟨mapUpdate app.windows id ws⟩, pre)

/-- `ai_one.rs` `resumed`: guarded by `self.windows.is_empty()`. -/
def aiResumed (newId : Nat) (newWs : AiWindowState) (app : AiApp) : AiApp :=
  if app.windows.isEmpty then ⟨mapInsert app.windows newId newWs⟩ else app

/-- Deliver `n` presses of the space bar to the same window
(`KeyboardInput { state: Pressed, physical_key: Code(Space) }`),
threading the application state. -/
def aiPressSpaceN (o : AiOracle) (app : AiApp) (id : Nat) : Nat → Option AiApp
  | 0 => some app
  | n + 1 => do
      let a ← aiPressSpaceN o app id n
      let r ← aiWindowEvent o a id (.keyboardInput .pressed .space)
      pure r.1

/-! ### `src/bin/eframe_winit.rs` — the eframe program -/

/-- `MyApp` of `eframe_winit.rs`: the `triangle_renderer` behind
`Arc<Mutex<..>>` holds opaque GL resources (program, vertex array);
the mutable application state is `show_color_picker` and `color`. -/
structure EfApp where
  showColorPicker : Bool
  color : Rat × Rat × Rat
deriving DecidableEq, Repr

/-- External egui results one `update` frame of `eframe_winit.rs`
consumes: whether `i.key_pressed(egui::Key::Space)` reported a press
this frame, and the state the picker window leaves in its open-flag
and colour sliders (through their `&mut` borrows) when it is shown. -/
structure EfOracle where
  keyPressedSpace : Bool
  uiKeepOpen : Bool
  uiColor : Rat × Rat × Rat
deriving DecidableEq, Repr

/-- `MyApp::update` in `eframe_winit.rs`: first the input handling
(`ctx.input`: a space press flips `show_color_picker`), then the
central panel, whose closure captures the colour read at that point
and registers the triangle paint callback (the GL draw itself runs
later, inside eframe's paint phase), then — only if
`show_color_picker` is set — the picker window, which may mutate the
flag and the sliders, and finally `ctx.request_repaint()`. -/
def efUpdate (o : EfOracle) (app : EfApp) : EfApp × List Effect :=
  let app1 := if o.keyPressedSpace then
      { app with showColorPicker := !app.showColorPicker } else app
  let eff := [Effect.paintCallbackAdded app1.color.1 app1.color.2.1 app1.color.2.2]
  let app2 := if app1.showColorPicker then
      { app1 with showColorPicker := o.uiKeepOpen, color := o.uiColor } else app1
  (app2, eff ++ [Effect.requestRepaint])

/-- Run `n` consecutive `update` frames with the same egui responses. -/
def efUpdateN (o : EfOracle) (app : EfApp) : Nat → EfApp
  | 0 => app
  | n + 1 => (efUpdate o (efUpdateN o app n)).1

/-! ### GL configuration selection (`create_window` in `ai_one.rs` and
`glow_run.rs`) -/

/-- An offered `glutin::config::Config`: its multisample count plus an
identity tag distinguishing configurations with equal sample counts. -/
structure GlConfig where
  numSamples : Nat
  cfgId : Nat
deriving DecidableEq, Repr

/-- The closure body of the `reduce` fold:
`if config.num_samples() > accum.num_samples() { config } else { accum }`. -/
def pickCfg (accum config : GlConfig) : GlConfig :=
  if config.numSamples > accum.numSamples then config else accum

/-- `configs.reduce(..)`: `none` on an empty iterator (the code then
panics via `.unwrap()`), otherwise the fold seeded with the first
configuration. -/
def selectConfig : List GlConfig → Option GlConfig
  | [] => none
  | c :: cs => some (cs.foldl pickCfg c)

/-- Largest multisample count offered. -/
def maxSamples : List GlConfig → Nat
  | [] => 0
  | c :: cs => max c.numSamples (maxSamples cs)

/-! ### Shader compile/link protocol (`create_window` in `ai_one.rs` /
`glow_run.rs`, `TriangleRenderer::new` in `eframe_winit.rs`) -/

/-- `glow::VERTEX_SHADER`. -/
def VERTEX_SHADER : Nat := 0x8B31

/-- `glow::FRAGMENT_SHADER`. -/
def FRAGMENT_SHADER : Nat := 0x8B30

/-- The fixed first line prepended to every shader source:
`format!("{}\n{}", "#version 410", shader_source)`. -/
def versionHeader : String := "#version 410"

/-- GL calls issued by the shader-setup block. -/
inductive ShaderEffect where
  | createShader (stage : Nat)
  | shaderSource (shader : Nat) (src : String)
  | compileShader (shader : Nat)
  | attachShader (program shader : Nat)
  | linkProgram (program : Nat)
  | detachShader (program shader : Nat)
  | deleteShader (shader : Nat)
deriving DecidableEq, Repr

/-- Driver-side outcomes: compile status and info log per created
shader object (numbered 1, 2 in creation order) and the program link
status and log. -/
structure GlDriver where
  compileStatus : Nat → Bool
  shaderLog : Nat → String
  linkStatus : Bool
  programLog : String

/-- One iteration of the `for (shader_type, shader_source) in
shader_sources` loop: create the shader object, source it with the
version header prepended, compile, check the status (`panic!` with the
info log on failure), attach, and remember the object. -/
def compileStage (d : GlDriver) (program : Nat) (sid : Nat) (stage : Nat)
    (src : String) : Except String (List ShaderEffect) :=
  if d.compileStatus sid then
    Except.ok [.createShader stage,
               .shaderSource sid (versionHeader ++ "\n" ++ src),
               .compileShader sid,
               .attachShader program sid]
  else Except.error (d.shaderLog sid)

/-- The `for (shader_type, shader_source) in shader_sources` loop:
process the stages in order, threading the shader-object counter and
collecting the issued calls and the created shader objects (the
`shaders` vector).  A failed stage aborts the whole loop. -/
def shaderLoop (d : GlDriver) (program : Nat) :
    Nat → List (Nat × String) → Except String (List ShaderEffect × List Nat)
  | _, [] => .ok ([], [])
  | sid, st :: rest => do
      let tr ← compileStage d program (sid + 1) st.1 st.2
      let acc ← shaderLoop d program (sid + 1) rest
      .ok (tr ++ acc.1, (sid + 1) :: acc.2)

/-- The whole shader-setup block: both fixed stages in order (vertex
then fragment), then `link_program` with its status check (`panic!`
with the program info log on failure), then the detach/delete loop
over the remembered shader objects.  A `panic!` aborts with the
driver's log text (`Except.error`). -/
def buildShaders (d : GlDriver) (program : Nat) (vsrc fsrc : String) :
    Except String (List ShaderEffect) := do
  let stages := [(VERTEX_SHADER, vsrc), (FRAGMENT_SHADER, fsrc)]
  let lp ← shaderLoop d program 0 stages
  if !d.linkStatus then
    throw d.programLog
  .ok ((lp.1 ++ [.linkProgram program]) ++
    (lp.2.map (fun s => [ShaderEffect.detachShader program s,
                         ShaderEffect.deleteShader s])).flatten)

/-! ### Default objects used by concrete instantiations -/

/-- The initial per-window state `create_window` in `ai_one.rs` inserts:
requested size 800×600, `show_color_picker: false`, `color: [1.0, 0.5, 0.2]`. -/
def aiWs0 : AiWindowState := ⟨800, 600, 1, 1, false, (1, mkRat 1 2, mkRat 1 5)⟩

/-- An oracle for `ai_one.rs`: egui requests no repaint, produces an
empty texture delta and no primitives, and the buffer swap succeeds. -/
def aiOracle0 : AiOracle := ⟨false, ⟨[], [], 0⟩, false, (0, 0, 0), true⟩

/-- An oracle for `ai_one.rs` with a non-trivial frame: egui requests a
repaint, uploads textures 10 and 11, frees texture 12, and emits 5
primitives. -/
def aiOracle1 : AiOracle := ⟨true, ⟨[10, 11], [12], 5⟩, true, (0, 1, 0), true⟩

def sbOracle0 : SbOracle := ⟨true, true, true⟩

/-- An oracle for `eframe_winit.rs`: egui reports a space press, and
the shown picker window leaves its open-flag set. -/
def efOracle0 : EfOracle := ⟨true, true, (0, 1, 0)⟩

/-- The initial `MyApp` state built in `MyApp::new`:
`show_color_picker: false`, `color: [1.0, 0.5, 0.2]`. -/
def efApp0 : EfApp := ⟨false, (1, mkRat 1 2, mkRat 1 5)⟩

def glowOracle0 : GlowOracle := ⟨true⟩

/-! ### Branch characterisations of the handlers -/

theorem aiHandleKey_not_key (ws : AiWindowState) (id : Nat) (ev : WEvent)
    (h : ∀ st k, ev ≠ .keyboardInput st k) : aiHandleKey ws id ev = (ws, []) := by
  cases ev with
  | keyboardInput st k => exact absurd rfl (h st k)
  | _ => rfl

theorem aiWindowEvent_close_eq (o : AiOracle) (app : AiApp) (id : Nat)
    (ws : AiWindowState) (hl : mapLookup app.windows id = some ws) :
    aiWindowEvent o app id .closeRequested =
      some (⟨mapRemove app.windows id⟩,
        (if o.repaint then [Effect.requestRedraw id] else []) ++
        (if (mapRemove app.windows id).isEmpty then [Effect.exit] else [])) := by
  simp [aiWindowEvent, hl, aiHandleKey]

theorem sbWindowEvent_close_eq (o : SbOracle) (app : SbApp) (id : Nat)
    (ws : SbWindowState) (hl : mapLookup app.windows id = some ws) :
    sbWindowEvent o app id .closeRequested =
      some (⟨mapRemove app.windows id⟩,
        if (mapRemove app.windows id).isEmpty then [Effect.exit] else []) := by
  simp [sbWindowEvent, hl]

theorem aiWindowEvent_redraw_eq (o : AiOracle) (app : AiApp) (id : Nat)
    (ws : AiWindowState) (hl : mapLookup app.windows id = some ws)
    (hs : o.swapOk = true) :
    aiWindowEvent o app id .redrawRequested =
      some (⟨mapUpdate app.windows id (uiMutate o ws)⟩,
        (if o.repaint then [Effect.requestRedraw id] else []) ++ aiRedrawTrace o ws) := by
  simp [aiWindowEvent, hl, aiHandleKey, hs]

theorem aiWindowEvent_resized_eq (o : AiOracle) (app : AiApp) (id : Nat)
    (ws : AiWindowState) (w h : Nat) (hl : mapLookup app.windows id = some ws) :
    aiWindowEvent o app id (.resized w h) =
      some (⟨mapUpdate app.windows id ws⟩,
        (if o.repaint then [Effect.requestRedraw id] else []) ++
        (if w ≠ 0 ∧ h ≠ 0 then [Effect.surfaceResize w h, Effect.requestRedraw id]
         else [])) := by
  by_cases hw : w = 0
  · simp [aiWindowEvent, hl, aiHandleKey, hw]
  · by_cases hh : h = 0
    · simp [aiWindowEvent, hl, aiHandleKey, hw, hh]
    · simp [aiWindowEvent, hl, aiHandleKey, hw, hh, nonZeroU32]

theorem glowWindowEvent_resized_eq (o : GlowOracle) (app : GlowApp) (id : Nat)
    (ws : GlowWindowState) (w h : Nat) (hl : mapLookup app.windows id = some ws) :
    glowWindowEvent o app id (.resized w h) =
      some (app,
        if w ≠ 0 ∧ h ≠ 0 then [Effect.surfaceResize w h, Effect.requestRedraw id]
        else []) := by
  by_cases hw : w = 0
  · simp [glowWindowEvent, hl, hw]
  · by_cases hh : h = 0
    · simp [glowWindowEvent, hl, hw, hh]
    · simp [glowWindowEvent, hl, hw, hh, nonZeroU32]

theorem aiWindowEvent_key_space_eq (o : AiOracle) (app : AiApp) (id : Nat)
    (ws : AiWindowState) (hl : mapLookup app.windows id = some ws) :
    aiWindowEvent o app id (.keyboardInput .pressed .space) =
      some (⟨mapUpdate app.windows id { ws with showColorPicker := !ws.showColorPicker }⟩,
        Effect.requestRedraw id ::
          (if o.repaint then [Effect.requestRedraw id] else [])) := by
  simp [aiWindowEvent, hl, aiHandleKey]

/-- C4: an event whose window handle has no entry in the window map is
dropped by `window_event` in all three programs: the application state
is returned unchanged and no external effect is emitted. -/
theorem unknown_window_event_noop (oA : AiOracle) (oS : SbOracle) (oG : GlowOracle)
    (appA : AiApp) (appS : SbApp) (appG : GlowApp) (idA idS idG : Nat)
    (evA evS evG : WEvent)
    (hA : mapLookup appA.windows idA = none)
    (hS : mapLookup appS.windows idS = none)
    (hG : mapLookup appG.windows idG = none) :
    aiWindowEvent oA appA idA evA = some (appA, []) ∧
    sbWindowEvent oS appS idS evS = some (appS, []) ∧
    glowWindowEvent oG appG idG evG = some (appG, []) := by
  refine ⟨?_, ?_, ?_⟩
  · simp [aiWindowEvent, hA]
  · simp [sbWindowEvent, hS]
  · simp [glowWindowEvent, hG]

theorem unknown_window_event_noop_witness :
    aiWindowEvent aiOracle1 ⟨[(3, aiWs0)]⟩ 7 .closeRequested = some (⟨[(3, aiWs0)]⟩, []) ∧
    sbWindowEvent sbOracle0 ⟨[]⟩ 0 .redrawRequested = some (⟨[]⟩, []) ∧
    glowWindowEvent glowOracle0 ⟨[]⟩ 5 (.resized 0 0) = some (⟨[]⟩, []) :=
  unknown_window_event_noop aiOracle1 sbOracle0 glowOracle0
    ⟨[(3, aiWs0)]⟩ ⟨[]⟩ ⟨[]⟩ 7 0 5 .closeRequested .redrawRequested (.resized 0 0)
    (by decide) rfl rfl

/-- C1: in `ai_one.rs` and `main.rs`, a `CloseRequested` event for the
only open window empties the window map and issues `event_loop.exit()`
exactly once; when other windows remain after the removal, no exit is
issued. -/
theorem closeRequested_last_window_exits (oA : AiOracle) (oS : SbOracle) :
    (∀ (app : AiApp) (id : Nat) (ws : AiWindowState), app.windows = [(id, ws)] →
       ∃ tr, aiWindowEvent oA app id .closeRequested = some (⟨[]⟩, tr) ∧
         tr.countP isExit = 1) ∧
    (∀ (app : SbApp) (id : Nat) (ws : SbWindowState), app.windows = [(id, ws)] →
       ∃ tr, sbWindowEvent oS app id .closeRequested = some (⟨[]⟩, tr) ∧
         tr.countP isExit = 1) ∧
    (∀ (app : AiApp) (id : Nat) (ws : AiWindowState),
       mapLookup app.windows id = some ws →
       (mapRemove app.windows id).isEmpty = false →
       ∃ a tr, aiWindowEvent oA app id .closeRequested = some (a, tr) ∧
         a.windows = mapRemove app.windows id ∧ tr.countP isExit = 0) ∧
    (∀ (app : SbApp) (id : Nat) (ws : SbWindowState),
       mapLookup app.windows id = some ws →
       (mapRemove app.windows id).isEmpty = false →
       ∃ a tr, sbWindowEvent oS app id .closeRequested = some (a, tr) ∧
         a.windows = mapRemove app.windows id ∧ tr.countP isExit = 0) := by
  refine ⟨?_, ?_, ?_, ?_⟩
  · intro app id ws h
    have hl : mapLookup app.windows id = some ws := by
      rw [h, mapLookup_cons]; simp
    have hr : mapRemove app.windows id = [] := by
      rw [h, mapRemove_cons]; simp [mapRemove]
    refine ⟨_, by rw [aiWindowEvent_close_eq oA app id ws hl, hr], ?_⟩
    cases hrep : oA.repaint <;>
      simp [hr, List.countP_append, List.countP_cons, isExit]
  · intro app id ws h
    have hl : mapLookup app.windows id = some ws := by
      rw [h, mapLookup_cons]; simp
    have hr : mapRemove app.windows id = [] := by
      rw [h, mapRemove_cons]; simp [mapRemove]
    refine ⟨_, by rw [sbWindowEvent_close_eq oS app id ws hl, hr], ?_⟩
    simp [List.countP_cons, isExit]
  · intro app id ws hl hne
    refine ⟨_, _, aiWindowEvent_close_eq oA app id ws hl, rfl, ?_⟩
    cases hrep : oA.repaint <;>
      simp [hne, List.countP_append, List.countP_cons, isExit]
  · intro app id ws hl hne
    refine ⟨_, _, sbWindowEvent_close_eq oS app id ws hl, rfl, ?_⟩
    simp [hne, List.countP_cons, isExit]

theorem closeRequested_last_window_exits_witness :
    (∃ tr, aiWindowEvent aiOracle1 ⟨[(3, aiWs0)]⟩ 3 .closeRequested =
       some (⟨[]⟩, tr) ∧ tr.countP isExit = 1) ∧
    (∃ tr, sbWindowEvent sbOracle0 ⟨[(0, ⟨800, 600⟩)]⟩ 0 .closeRequested =
       some (⟨[]⟩, tr) ∧ tr.countP isExit = 1) ∧
    (∃ a tr, aiWindowEvent aiOracle1 ⟨[(3, aiWs0), (4, aiWs0)]⟩ 3 .closeRequested =
       some (a, tr) ∧ a.windows = mapRemove [(3, aiWs0), (4, aiWs0)] 3 ∧
       tr.countP isExit = 0) ∧
    (∃ a tr, sbWindowEvent sbOracle0 ⟨[(0, ⟨800, 600⟩), (1, ⟨10, 10⟩)]⟩ 0 .closeRequested =
       some (a, tr) ∧ a.windows = mapRemove [(0, (⟨800, 600⟩ : SbWindowState)), (1, ⟨10, 10⟩)] 0 ∧
       tr.countP isExit = 0) :=
  ⟨(closeRequested_last_window_exits aiOracle1 sbOracle0).1 ⟨[(3, aiWs0)]⟩ 3 aiWs0 (by decide),
   (closeRequested_last_window_exits aiOracle1 sbOracle0).2.1 ⟨[(0, ⟨800, 600⟩)]⟩ 0 ⟨800, 600⟩ rfl,
   (closeRequested_last_window_exits aiOracle1 sbOracle0).2.2.1 ⟨[(3, aiWs0), (4, aiWs0)]⟩ 3 aiWs0
     (by decide) (by decide),
   (closeRequested_last_window_exits aiOracle1 sbOracle0).2.2.2 ⟨[(0, ⟨800, 600⟩), (1, ⟨10, 10⟩)]⟩ 0 ⟨800, 600⟩
     rfl rfl⟩

/-- C2: in `ai_one.rs` and `glow_run.rs`, a `Resized(w,h)` event with a
zero dimension performs no surface-resize call and does not panic (the
`NonZeroU32` unwraps sit behind the both-nonzero guard); with both
dimensions nonzero the handler resizes the surface and requests a
redraw. -/
theorem resized_zero_guard (oA : AiOracle) (oG : GlowOracle)
    (appA : AiApp) (appG : GlowApp) (idA idG w h : Nat)
    (wsA : AiWindowState) (wsG : GlowWindowState)
    (hA : mapLookup appA.windows idA = some wsA)
    (hG : mapLookup appG.windows idG = some wsG) :
    ((w = 0 ∨ h = 0) →
       (∃ a tr, aiWindowEvent oA appA idA (.resized w h) = some (a, tr) ∧
          tr.countP isSurfaceResize = 0) ∧
       (∃ a tr, glowWindowEvent oG appG idG (.resized w h) = some (a, tr) ∧
          tr.countP isSurfaceResize = 0)) ∧
    (w ≠ 0 → h ≠ 0 →
       (∃ a tr, aiWindowEvent oA appA idA (.resized w h) = some (a, tr) ∧
          Effect.surfaceResize w h ∈ tr ∧ Effect.requestRedraw idA ∈ tr) ∧
       (∃ a tr, glowWindowEvent oG appG idG (.resized w h) = some (a, tr) ∧
          Effect.surfaceResize w h ∈ tr ∧ Effect.requestRedraw idG ∈ tr)) := by
  constructor
  · intro hz
    have hng : ¬ (w ≠ 0 ∧ h ≠ 0) := by rcases hz with hz | hz <;> simp [hz]
    constructor
    · refine ⟨_, _, aiWindowEvent_resized_eq oA appA idA wsA w h hA, ?_⟩
      cases hrep : oA.repaint <;>
        simp [hng, List.countP_append, List.countP_cons, isSurfaceResize]
    · refine ⟨_, _, glowWindowEvent_resized_eq oG appG idG wsG w h hG, ?_⟩
      simp [hng]
  · intro hw hh
    have hg : w ≠ 0 ∧ h ≠ 0 := ⟨hw, hh⟩
    constructor
    · refine ⟨_, _, aiWindowEvent_resized_eq oA appA idA wsA w h hA, ?_, ?_⟩ <;>
        cases hrep : oA.repaint <;> simp [hg]
    · refine ⟨_, _, glowWindowEvent_resized_eq oG appG idG wsG w h hG, ?_, ?_⟩ <;>
        simp [hg]

theorem resized_zero_guard_witness :
    ((∃ a tr, aiWindowEvent aiOracle1 ⟨[(3, aiWs0)]⟩ 3 (.resized 0 600) = some (a, tr) ∧
        tr.countP isSurfaceResize = 0) ∧
     (∃ a tr, glowWindowEvent glowOracle0 ⟨[(2, ⟨()⟩)]⟩ 2 (.resized 0 600) = some (a, tr) ∧
        tr.countP isSurfaceResize = 0)) ∧
    ((∃ a tr, aiWindowEvent aiOracle1 ⟨[(3, aiWs0)]⟩ 3 (.resized 1024 768) = some (a, tr) ∧
        Effect.surfaceResize 1024 768 ∈ tr ∧ Effect.requestRedraw 3 ∈ tr) ∧
     (∃ a tr, glowWindowEvent glowOracle0 ⟨[(2, ⟨()⟩)]⟩ 2 (.resized 1024 768) = some (a, tr) ∧
        Effect.surfaceResize 1024 768 ∈ tr ∧ Effect.requestRedraw 2 ∈ tr)) :=
  ⟨(resized_zero_guard aiOracle1 glowOracle0 ⟨[(3, aiWs0)]⟩ ⟨[(2, ⟨()⟩)]⟩ 3 2 0 600
      aiWs0 ⟨()⟩ rfl rfl).1 (Or.inl rfl),
   (resized_zero_guard aiOracle1 glowOracle0 ⟨[(3, aiWs0)]⟩ ⟨[(2, ⟨()⟩)]⟩ 3 2 1024 768
      aiWs0 ⟨()⟩ rfl rfl).2 (by decide) (by decide)⟩

/-- C10: in `main.rs`, a `RedrawRequested` event for a window whose
inner size has a zero dimension is a complete no-op — no surface
resize, no buffer fill, no present, no panic; the
resize → fill → present sequence runs exactly when both dimensions are
nonzero. -/
theorem sb_redraw_zero_guard (o : SbOracle) (app : SbApp) (id : Nat)
    (ws : SbWindowState) (hl : mapLookup app.windows id = some ws) :
    (ws.innerW = 0 ∨ ws.innerH = 0 →
       sbWindowEvent o app id .redrawRequested = some (app, [])) ∧
    (ws.innerW ≠ 0 → ws.innerH ≠ 0 →
       o.resizeOk = true → o.bufferOk = true → o.presentOk = true →
       sbWindowEvent o app id .redrawRequested =
         some (app, [Effect.surfaceResize ws.innerW ws.innerH,
                     Effect.bufferFill 0xFF0066CC,
                     Effect.prePresentNotify, Effect.present])) := by
  constructor
  · intro hz
    rcases hz with hz | hz <;> simp [sbWindowEvent, hl, nonZeroU32, hz]
  · intro hw hh h1 h2 h3
    simp [sbWindowEvent, hl, nonZeroU32, hw, hh, h1, h2, h3]

theorem sb_redraw_zero_guard_witness :
    sbWindowEvent sbOracle0 ⟨[(0, ⟨0, 600⟩)]⟩ 0 .redrawRequested =
      some (⟨[(0, ⟨0, 600⟩)]⟩, []) ∧
    sbWindowEvent sbOracle0 ⟨[(0, ⟨800, 600⟩)]⟩ 0 .redrawRequested =
      some (⟨[(0, ⟨800, 600⟩)]⟩,
        [Effect.surfaceResize 800 600, Effect.bufferFill 0xFF0066CC,
         Effect.prePresentNotify, Effect.present]) :=
  ⟨(sb_redraw_zero_guard sbOracle0 ⟨[(0, ⟨0, 600⟩)]⟩ 0 ⟨0, 600⟩ rfl).1 (Or.inl rfl),
   (sb_redraw_zero_guard sbOracle0 ⟨[(0, ⟨800, 600⟩)]⟩ 0 ⟨800, 600⟩ rfl).2
     (by decide) (by decide) rfl rfl rfl⟩

/-- C3 counterexample: `main.rs`'s `resumed` has no emptiness guard — it
unconditionally calls `create_window`.  Invoked on a state that already
holds one window (id 0), with the platform handing out fresh id 1, it
grows the map to two entries instead of leaving it unchanged. -/
theorem resumed_not_idempotent_cex :
    (sbResumed 1 ⟨800, 600⟩ ⟨[(0, ⟨800, 600⟩)]⟩).windows.length = 2 ∧
    sbResumed 1 ⟨800, 600⟩ ⟨[(0, ⟨800, 600⟩)]⟩ ≠ ⟨[(0, ⟨800, 600⟩)]⟩ := by
  decide

/-- C3 amended: in `ai_one.rs` and `glow_run.rs`, `resumed` is guarded
by `self.windows.is_empty()`, so it is idempotent once a window exists
(non-empty map → state unchanged) and creates exactly one window when
the map is empty; in `main.rs`, `resumed` unconditionally creates a
fresh window on every invocation. -/
theorem resumed_idempotent_amended (newId : Nat) (wsA : AiWindowState)
    (wsG : GlowWindowState) (wsS : SbWindowState) :
    (∀ app : AiApp, app.windows ≠ [] → aiResumed newId wsA app = app) ∧
    (∀ app : AiApp, app.windows = [] →
       (aiResumed newId wsA app).windows = [(newId, wsA)]) ∧
    (∀ app : GlowApp, app.windows ≠ [] → glowResumed newId wsG app = app) ∧
    (∀ app : GlowApp, app.windows = [] →
       (glowResumed newId wsG app).windows = [(newId, wsG)]) ∧
    (∀ app : SbApp, mapLookup app.windows newId = none →
       (sbResumed newId wsS app).windows.length = app.windows.length + 1) := by
  refine ⟨?_, ?_, ?_, ?_, ?_⟩
  · intro app hne
    simp [aiResumed, List.isEmpty_iff, hne]
  · intro app he
    simp [aiResumed, he, mapInsert, mapRemove]
  · intro app hne
    simp [glowResumed, List.isEmpty_iff, hne]
  · intro app he
    simp [glowResumed, he, mapInsert, mapRemove]
  · intro app hn
    simp [sbResumed, mapInsert, mapRemove_of_lookup_none _ _ hn]

theorem resumed_idempotent_amended_witness :
    aiResumed 1 aiWs0 ⟨[(0, aiWs0)]⟩ = ⟨[(0, aiWs0)]⟩ ∧
    (aiResumed 1 aiWs0 ⟨[]⟩).windows = [(1, aiWs0)] ∧
    glowResumed 1 ⟨()⟩ ⟨[(0, ⟨()⟩)]⟩ = ⟨[(0, ⟨()⟩)]⟩ ∧
    (glowResumed 1 ⟨()⟩ ⟨[]⟩).windows = [(1, ⟨()⟩)] ∧
    (sbResumed 1 ⟨800, 600⟩ ⟨[(0, ⟨800, 600⟩)]⟩).windows.length =
      ([(0, (⟨800, 600⟩ : SbWindowState))].length : Nat) + 1 :=
  ⟨(resumed_idempotent_amended 1 aiWs0 ⟨()⟩ ⟨800, 600⟩).1 ⟨[(0, aiWs0)]⟩ (by simp),
   (resumed_idempotent_amended 1 aiWs0 ⟨()⟩ ⟨800, 600⟩).2.1 ⟨[]⟩ rfl,
   (resumed_idempotent_amended 1 aiWs0 ⟨()⟩ ⟨800, 600⟩).2.2.1 ⟨[(0, ⟨()⟩)]⟩ (by simp),
   (resumed_idempotent_amended 1 aiWs0 ⟨()⟩ ⟨800, 600⟩).2.2.2.1 ⟨[]⟩ rfl,
   (resumed_idempotent_amended 1 aiWs0 ⟨()⟩ ⟨800, 600⟩).2.2.2.2 ⟨[(0, ⟨800, 600⟩)]⟩ rfl⟩

/-- C6: delivering `n` presses of the space bar leaves the overlay
visibility flag at its initial value when `n` is even and at its
negation when `n` is odd, in both implementations of the toggle: the
`window_event` keyboard pre-handler of `ai_one.rs` (a live window, no
other event in between) and `MyApp::update` of `eframe_winit.rs`
(`n` frames each reporting `key_pressed(Space)`, the shown picker
window leaving its open-flag untouched). -/
theorem space_toggle_parity (o : AiOracle) (oe : EfOracle) (app : AiApp)
    (eapp : EfApp) (id : Nat) (ws : AiWindowState) (n : Nat)
    (hl : mapLookup app.windows id = some ws)
    (hk : oe.keyPressedSpace = true) (hu : oe.uiKeepOpen = true) :
    (∃ app', aiPressSpaceN o app id n = some app' ∧
       mapLookup app'.windows id = some
         { ws with showColorPicker :=
             if n % 2 = 0 then ws.showColorPicker else !ws.showColorPicker }) ∧
    (efUpdateN oe eapp n).showColorPicker =
      (if n % 2 = 0 then eapp.showColorPicker else !eapp.showColorPicker) := by
  constructor
  · induction n with
    | zero => exact ⟨app, rfl, by simpa using hl⟩
    | succ n ih =>
        obtain ⟨a, ha, hlook⟩ := ih
        refine ⟨⟨mapUpdate a.windows id
          { ws with showColorPicker :=
              !(if n % 2 = 0 then ws.showColorPicker else !ws.showColorPicker) }⟩, ?_, ?_⟩
        · simp [aiPressSpaceN, ha, aiWindowEvent_key_space_eq o a id _ hlook]
        · have := mapLookup_mapUpdate_self a.windows id
            { ws with showColorPicker :=
                !(if n % 2 = 0 then ws.showColorPicker else !ws.showColorPicker) } _ hlook
          rw [this]
          rcases Nat.mod_two_eq_zero_or_one n with hp | hp
          · have hp1 : (n + 1) % 2 = 1 := by omega
            simp [hp, hp1]
          · have hp0 : (n + 1) % 2 = 0 := by omega
            simp [hp, hp0]
  · have hstep : ∀ a : EfApp, (efUpdate oe a).1.showColorPicker = !a.showColorPicker := by
      intro a
      cases hsp : a.showColorPicker <;> simp [efUpdate, hk, hu, hsp]
    induction n with
    | zero => simp [efUpdateN]
    | succ n ih =>
        rcases Nat.mod_two_eq_zero_or_one n with hp | hp
        · have hp1 : (n + 1) % 2 = 1 := by omega
          simp [hp, hp1] at ih ⊢
          simp [efUpdateN, hstep, ih]
        · have hp0 : (n + 1) % 2 = 0 := by omega
          simp [hp, hp0] at ih ⊢
          simp [efUpdateN, hstep, ih]

theorem space_toggle_parity_witness :
    ((∃ app', aiPressSpaceN aiOracle1 ⟨[(3, aiWs0)]⟩ 3 4 = some app' ∧
        mapLookup app'.windows 3 = some
          { aiWs0 with showColorPicker :=
              if 4 % 2 = 0 then aiWs0.showColorPicker else !aiWs0.showColorPicker }) ∧
     (efUpdateN efOracle0 efApp0 4).showColorPicker =
       (if 4 % 2 = 0 then efApp0.showColorPicker else !efApp0.showColorPicker)) ∧
    ((∃ app', aiPressSpaceN aiOracle1 ⟨[(3, aiWs0)]⟩ 3 5 = some app' ∧
        mapLookup app'.windows 3 = some
          { aiWs0 with showColorPicker :=
              if 5 % 2 = 0 then aiWs0.showColorPicker else !aiWs0.showColorPicker }) ∧
     (efUpdateN efOracle0 efApp0 5).showColorPicker =
       (if 5 % 2 = 0 then efApp0.showColorPicker else !efApp0.showColorPicker)) :=
  ⟨space_toggle_parity aiOracle1 efOracle0 ⟨[(3, aiWs0)]⟩ efApp0 3 aiWs0 4 rfl rfl rfl,
   space_toggle_parity aiOracle1 efOracle0 ⟨[(3, aiWs0)]⟩ efApp0 3 aiWs0 5 rfl rfl rfl⟩

theorem find?_cons_eq (p : α → Bool) (a : α) (l : List α) :
    (a :: l).find? p = if p a then some a else l.find? p := by
  cases h : p a <;> simp [List.find?, h]

/-- The `reduce` fold seeded with `a` returns the first element of
`a :: cs` whose sample count equals the running maximum: the
accumulator is replaced only on a strictly greater count, so earlier
elements win ties. -/
theorem foldl_pickCfg_find (cs : List GlConfig) : ∀ a : GlConfig,
    some (cs.foldl pickCfg a) =
      (a :: cs).find? (fun c => c.numSamples == max a.numSamples (maxSamples cs)) := by
  induction cs with
  | nil =>
      intro a
      simp [maxSamples, find?_cons_eq]
  | cons c cs ih =>
      intro a
      simp only [List.foldl_cons, maxSamples]
      by_cases hc : a.numSamples < c.numSamples
      · have hpk : pickCfg a c = c := by simp [pickCfg, hc]
        have hM : max a.numSamples (max c.numSamples (maxSamples cs)) =
            max c.numSamples (maxSamples cs) :=
          Nat.max_eq_right (le_trans (Nat.le_of_lt hc) (Nat.le_max_left _ _))
        have hqa : (a.numSamples == max c.numSamples (maxSamples cs)) = false := by
          have := Nat.le_max_left c.numSamples (maxSamples cs)
          simp only [beq_eq_false_iff_ne, ne_eq]
          omega
        rw [hpk, hM, ih c]
        conv_rhs => rw [find?_cons_eq]
        rw [hqa]
        simp
      · have hle : c.numSamples ≤ a.numSamples := Nat.le_of_not_lt hc
        have hpk : pickCfg a c = a := by simp [pickCfg, hc]
        have hM : max a.numSamples (max c.numSamples (maxSamples cs)) =
            max a.numSamples (maxSamples cs) := by
          rw [← max_assoc, Nat.max_eq_left hle]
        rw [hpk, hM, ih a]
        conv_lhs => rw [find?_cons_eq]
        conv_rhs => rw [find?_cons_eq]
        by_cases hqa : a.numSamples = max a.numSamples (maxSamples cs)
        · have hqab : (a.numSamples == max a.numSamples (maxSamples cs)) = true := by
            simpa using hqa
          rw [hqab]
          simp
        · have hqab : (a.numSamples == max a.numSamples (maxSamples cs)) = false := by
            simpa using hqa
          have hqcb : (c.numSamples == max a.numSamples (maxSamples cs)) = false := by
            have := Nat.le_max_left a.numSamples (maxSamples cs)
            simp only [beq_eq_false_iff_ne, ne_eq]
            omega
          rw [hqab]
          simp only [Bool.false_eq_true, if_false]
          conv_rhs => rw [find?_cons_eq]
          rw [hqcb]
          simp

/-- C5: for a non-empty configuration sequence, the `reduce` fold in
`create_window` returns exactly the first configuration whose sample
count is the sequence's maximum (ties keep the earlier configuration,
because the accumulator is replaced only on strictly greater count). -/
theorem selectConfig_first_max (l : List GlConfig) (hne : l ≠ []) :
    selectConfig l = l.find? (fun c => c.numSamples == maxSamples l) ∧
    ∀ c, selectConfig l = some c → c ∈ l ∧ c.numSamples = maxSamples l := by
  match l with
  | [] => exact absurd rfl hne
  | a :: cs =>
      have hfirst : selectConfig (a :: cs) =
          (a :: cs).find? (fun c => c.numSamples == maxSamples (a :: cs)) := by
        have h := foldl_pickCfg_find cs a
        simpa [selectConfig, maxSamples] using h
      refine ⟨hfirst, ?_⟩
      intro c hc
      rw [hfirst] at hc
      refine ⟨List.mem_of_find?_eq_some hc, ?_⟩
      have := List.find?_some hc
      simpa using this

theorem selectConfig_first_max_witness :
    (selectConfig [⟨4, 0⟩, ⟨8, 1⟩, ⟨8, 2⟩, ⟨2, 3⟩] =
       ([⟨4, 0⟩, ⟨8, 1⟩, ⟨8, 2⟩, ⟨2, 3⟩] : List GlConfig).find?
         (fun c => c.numSamples == maxSamples [⟨4, 0⟩, ⟨8, 1⟩, ⟨8, 2⟩, ⟨2, 3⟩]) ∧
     ∀ c, selectConfig [⟨4, 0⟩, ⟨8, 1⟩, ⟨8, 2⟩, ⟨2, 3⟩] = some c →
       c ∈ ([⟨4, 0⟩, ⟨8, 1⟩, ⟨8, 2⟩, ⟨2, 3⟩] : List GlConfig) ∧
       c.numSamples = maxSamples [⟨4, 0⟩, ⟨8, 1⟩, ⟨8, 2⟩, ⟨2, 3⟩]) ∧
    selectConfig [⟨4, 0⟩, ⟨8, 1⟩, ⟨8, 2⟩, ⟨2, 3⟩] = some ⟨8, 1⟩ :=
  ⟨selectConfig_first_max [⟨4, 0⟩, ⟨8, 1⟩, ⟨8, 2⟩, ⟨2, 3⟩] (by decide), by decide⟩

theorem countP_map_zero {β : Type} (f : β → Effect) (p : Effect → Bool)
    (hp : ∀ x, p (f x) = false) (l : List β) : (l.map f).countP p = 0 := by
  induction l with
  | nil => rfl
  | cons x l ih => simp [List.countP_cons, hp, ih]

/-- C8: a `RedrawRequested` frame for a live window of `ai_one.rs`
issues exactly one `draw_arrays(TRIANGLES, 0, 3)` call, that call comes
before any overlay (egui) paint call, and the frame is presented
(`swap_buffers`) exactly once, as the last call of the frame. -/
theorem redraw_draw_once_present_once (o : AiOracle) (app : AiApp) (id : Nat)
    (ws : AiWindowState) (hl : mapLookup app.windows id = some ws)
    (hs : o.swapOk = true) :
    ∃ a A B, aiWindowEvent o app id .redrawRequested =
        some (a, A ++ Effect.drawArrays TRIANGLES 0 3 :: B) ∧
      A.countP isDrawArrays = 0 ∧ B.countP isDrawArrays = 0 ∧
      A.countP isOverlayPaint = 0 ∧
      ∃ B', B = B' ++ [Effect.swapBuffers] ∧
        A.countP isSwapBuffers = 0 ∧ B'.countP isSwapBuffers = 0 := by
  refine ⟨⟨mapUpdate app.windows id (uiMutate o ws)⟩,
    (if o.repaint then [Effect.requestRedraw id] else []) ++
      [.viewport 0 0 (u32ToI32 ws.innerW) (u32ToI32 ws.innerH),
       .clearColor (mkRat 1 10) (mkRat 1 5) (mkRat 3 10) 1,
       .glClear COLOR_BUFFER_BIT,
       .useProgram ws.program,
       .bindVertexArray ws.vertexArray,
       .getUniformLocation ws.program "u_color",
       .uniform3f ws.color.1 ws.color.2.1 ws.color.2.2],
    Effect.platformOutput :: (o.frame.setTex.map .setTexture
      ++ Effect.overlayPaint ws.innerW ws.innerH o.frame.numPrims
      :: (o.frame.freeTex.map .freeTexture ++ [Effect.swapBuffers])),
    ?_, ?_, ?_, ?_,
    Effect.platformOutput :: (o.frame.setTex.map .setTexture
      ++ Effect.overlayPaint ws.innerW ws.innerH o.frame.numPrims
      :: o.frame.freeTex.map .freeTexture), ?_, ?_, ?_⟩
  · rw [aiWindowEvent_redraw_eq o app id ws hl hs]
    simp [aiRedrawTrace]
  · cases o.repaint <;>
      simp [List.countP_append, List.countP_cons, isDrawArrays]
  · simp [List.countP_append, List.countP_cons, isDrawArrays,
      countP_map_zero Effect.setTexture isDrawArrays (fun _ => rfl),
      countP_map_zero Effect.freeTexture isDrawArrays (fun _ => rfl)]
  · cases o.repaint <;>
      simp [List.countP_append, List.countP_cons, isOverlayPaint]
  · simp
  · cases o.repaint <;>
      simp [List.countP_append, List.countP_cons, isSwapBuffers]
  · simp [List.countP_append, List.countP_cons, isSwapBuffers,
      countP_map_zero Effect.setTexture isSwapBuffers (fun _ => rfl),
      countP_map_zero Effect.freeTexture isSwapBuffers (fun _ => rfl)]

theorem redraw_draw_once_present_once_witness :
    ∃ a A B, aiWindowEvent aiOracle1 ⟨[(3, aiWs0)]⟩ 3 .redrawRequested =
        some (a, A ++ Effect.drawArrays TRIANGLES 0 3 :: B) ∧
      A.countP isDrawArrays = 0 ∧ B.countP isDrawArrays = 0 ∧
      A.countP isOverlayPaint = 0 ∧
      ∃ B', B = B' ++ [Effect.swapBuffers] ∧
        A.countP isSwapBuffers = 0 ∧ B'.countP isSwapBuffers = 0 :=
  redraw_draw_once_present_once aiOracle1 ⟨[(3, aiWs0)]⟩ 3 aiWs0 rfl rfl

/-- C7: in a `RedrawRequested` frame of `ai_one.rs`, every texture
upload of the frame's delta (`textures_delta.set`) is issued before the
overlay's primitive paint call and every free (`textures_delta.free`)
after it; a frame with an empty delta performs zero upload and zero
free calls. -/
theorem texture_delta_ordering (o : AiOracle) (app : AiApp) (id : Nat)
    (ws : AiWindowState) (hl : mapLookup app.windows id = some ws)
    (hs : o.swapOk = true) :
    ∃ a tr A B, aiWindowEvent o app id .redrawRequested = some (a, tr) ∧
      tr = A ++ (o.frame.setTex.map .setTexture
        ++ Effect.overlayPaint ws.innerW ws.innerH o.frame.numPrims
        :: (o.frame.freeTex.map .freeTexture ++ B)) ∧
      A.countP isSetTexture = 0 ∧ A.countP isFreeTexture = 0 ∧
      A.countP isOverlayPaint = 0 ∧
      B.countP isSetTexture = 0 ∧ B.countP isFreeTexture = 0 ∧
      (o.frame.setTex = [] → tr.countP isSetTexture = 0) ∧
      (o.frame.freeTex = [] → tr.countP isFreeTexture = 0) := by
  refine ⟨⟨mapUpdate app.windows id (uiMutate o ws)⟩,
    (if o.repaint then [Effect.requestRedraw id] else []) ++ aiRedrawTrace o ws,
    (if o.repaint then [Effect.requestRedraw id] else []) ++
      [.viewport 0 0 (u32ToI32 ws.innerW) (u32ToI32 ws.innerH),
       .clearColor (mkRat 1 10) (mkRat 1 5) (mkRat 3 10) 1,
       .glClear COLOR_BUFFER_BIT,
       .useProgram ws.program,
       .bindVertexArray ws.vertexArray,
       .getUniformLocation ws.program "u_color",
       .uniform3f ws.color.1 ws.color.2.1 ws.color.2.2,
       .drawArrays TRIANGLES 0 3,
       .platformOutput],
    [Effect.swapBuffers],
    aiWindowEvent_redraw_eq o app id ws hl hs, ?_, ?_, ?_, ?_, ?_, ?_, ?_, ?_⟩
  · simp [aiRedrawTrace]
  · cases o.repaint <;>
      simp [List.countP_append, List.countP_cons, isSetTexture]
  · cases o.repaint <;>
      simp [List.countP_append, List.countP_cons, isFreeTexture]
  · cases o.repaint <;>
      simp [List.countP_append, List.countP_cons, isOverlayPaint]
  · simp [List.countP_cons, isSetTexture]
  · simp [List.countP_cons, isFreeTexture]
  · intro hset
    cases o.repaint <;>
      simp [aiRedrawTrace, hset, List.countP_append, List.countP_cons, isSetTexture,
        countP_map_zero Effect.freeTexture isSetTexture (fun _ => rfl)]
  · intro hfree
    cases o.repaint <;>
      simp [aiRedrawTrace, hfree, List.countP_append, List.countP_cons, isFreeTexture,
        countP_map_zero Effect.setTexture isFreeTexture (fun _ => rfl)]

theorem texture_delta_ordering_witness :
    ∃ a tr A B, aiWindowEvent aiOracle1 ⟨[(3, aiWs0)]⟩ 3 .redrawRequested = some (a, tr) ∧
      tr = A ++ (aiOracle1.frame.setTex.map .setTexture
        ++ Effect.overlayPaint aiWs0.innerW aiWs0.innerH aiOracle1.frame.numPrims
        :: (aiOracle1.frame.freeTex.map .freeTexture ++ B)) ∧
      A.countP isSetTexture = 0 ∧ A.countP isFreeTexture = 0 ∧
      A.countP isOverlayPaint = 0 ∧
      B.countP isSetTexture = 0 ∧ B.countP isFreeTexture = 0 ∧
      (aiOracle1.frame.setTex = [] → tr.countP isSetTexture = 0) ∧
      (aiOracle1.frame.freeTex = [] → tr.countP isFreeTexture = 0) :=
  texture_delta_ordering aiOracle1 ⟨[(3, aiWs0)]⟩ 3 aiWs0 rfl rfl

/-- C9: the shader-setup block processes exactly the two fixed stages,
vertex then fragment; for each it creates a shader object, prepends
`"#version 410\n"` to the source, compiles, and aborts with the
shader's info log iff its compile status is false; it then links the
program, aborts with the program's info log iff the link status is
false, and on success detaches and deletes both shader objects. -/
theorem buildShaders_protocol (d : GlDriver) (program : Nat) (vsrc fsrc : String) :
    buildShaders d program vsrc fsrc =
      if d.compileStatus 1 = false then Except.error (d.shaderLog 1)
      else if d.compileStatus 2 = false then Except.error (d.shaderLog 2)
      else if d.linkStatus = false then Except.error d.programLog
      else Except.ok
        [.createShader VERTEX_SHADER,
         .shaderSource 1 (versionHeader ++ "\n" ++ vsrc),
         .compileShader 1,
         .attachShader program 1,
         .createShader FRAGMENT_SHADER,
         .shaderSource 2 (versionHeader ++ "\n" ++ fsrc),
         .compileShader 2,
         .attachShader program 2,
         .linkProgram program,
         .detachShader program 1, .deleteShader 1,
         .detachShader program 2, .deleteShader 2] := by
  cases h1 : d.compileStatus 1 <;> cases h2 : d.compileStatus 2 <;> cases h3 : d.linkStatus <;>
    simp [buildShaders, shaderLoop, compileStage, h1, h2, h3, Bind.bind, Except.bind,
      throw, throwThe, MonadExcept.throw, Pure.pure, Except.pure]
